import Mathlib

/-!
Shallow embedding of `src/mpris2controller/controller.py`.

The Python `Controller` keeps two containers:
  * `self.playing : set`   — modelled as a `List Name` in iteration order,
    duplicate-free whenever it represents a set (Python sets hold no
    duplicates; `Nodup` hypotheses state this where needed);
  * `self.not_playing : list` — modelled as a `List Name` directly.

Python operations are translated as:
  * `list.remove(x)` removes the first occurrence and raises `ValueError`
    when absent → `List.erase` plus an explicit membership test where the
    exception changes control flow;
  * `set.discard(x)` → `List.erase` (on a duplicate-free list);
  * `set.add(x)` → append when absent;
  * outbound D-Bus calls are recorded as a list of `(target, methodName)`
    pairs instead of being performed.
-/

namespace Mpris2Controller

abbrev Name := String

/-- One outbound D-Bus method call: target connection name and method name. -/
abbrev Call := Name × String

def MPRIS_INTERFACE : String := "org.mpris.MediaPlayer2.Player"

structure Controller where
  playing : List Name
  not_playing : List Name
  deriving DecidableEq, Repr

/-- Registry state right after `Controller.__init__` sets
`self.playing = set()` and `self.not_playing = []` (before bus seeding). -/
def Controller.init : Controller := ⟨[], []⟩

/-- Embeds `Controller.markas_playing` (lines 92–100):
`try: self.not_playing.remove(name) except ValueError: pass` then
`if name not in self.playing: self.playing.add(name)`.
`List.erase` is a no-op on a missing element, matching the caught
`ValueError`. -/
def markas_playing (c : Controller) (name : Name) : Controller :=
  { playing := if name ∈ c.playing then c.playing else c.playing ++ [name]
    not_playing := c.not_playing.erase name }

/-- Embeds `Controller.markas_not_playing` (lines 102–107):
`self.playing.discard(name)` then
`if name not in self.not_playing: self.not_playing.append(name)`. -/
def markas_not_playing (c : Controller) (name : Name) : Controller :=
  { playing := c.playing.erase name
    not_playing :=
      if name ∈ c.not_playing then c.not_playing else c.not_playing ++ [name] }

/-- Embeds `Controller.remove` (lines 109–114):
`try: self.not_playing.remove(name); self.playing.discard(name)
except ValueError: pass`.
When `name` is absent from `not_playing`, `list.remove` raises
`ValueError` BEFORE `playing.discard` runs, so the whole body is a no-op
even when `name` is in `playing`. -/
def remove (c : Controller) (name : Name) : Controller :=
  if name ∈ c.not_playing then
    { playing := c.playing.erase name
      not_playing := c.not_playing.erase name }
  else
    c

/-- Embeds `Controller.call_on_all_playing` (lines 116–119): the loop
`for n in self.playing: getattr(self.bus.get_object(n, MPRIS_PATH), method_name)()`
with every call succeeding; returns the calls issued, in iteration order. -/
def call_on_all_playing (c : Controller) (method_name : String) : List Call :=
  c.playing.map (fun n => (n, method_name))

/-- Embeds `Controller.call_on_one_playing` (lines 121–124):
`if len(self.playing) == 1: self.call_on_all_playing(method_name)`. -/
def call_on_one_playing (c : Controller) (method_name : String) : List Call :=
  if c.playing.length = 1 then call_on_all_playing c method_name else []

/-- Embeds `Controller.call_on_head_not_playing` (lines 126–129):
`if len(self.not_playing) > 0: ... self.not_playing[-1] ...`;
`[-1]` is the last element. -/
def call_on_head_not_playing (c : Controller) (method_name : String) : List Call :=
  if 0 < c.not_playing.length then
    (c.not_playing.getLast?).elim [] (fun n => [(n, method_name)])
  else []

/-- Embeds the D-Bus method `Controller.PlayPause` (lines 131–137). The
method never assigns to `self.playing` or `self.not_playing`, so the
registry component of the result is the input state. -/
def PlayPause (c : Controller) : Controller × List Call :=
  if 0 < c.playing.length then (c, call_on_all_playing c "Pause")
  else (c, call_on_head_not_playing c "Play")

/-- Embeds the D-Bus method `Controller.Next` (lines 139–142). -/
def Next (c : Controller) : Controller × List Call :=
  (c, call_on_one_playing c "Next")

/-- Embeds the D-Bus method `Controller.Previous` (lines 144–147). -/
def Previous (c : Controller) : Controller × List Call :=
  (c, call_on_one_playing c "Previous")

/-- Embeds `Controller.call_on_all_playing` with a failure model: `fails n`
says the outbound call to `n` raises `DBusException`. The source loop has
no `try`/`except`, so a raised exception aborts the iteration: the failing
target was still attempted (first component collects attempted calls), the
Boolean records whether the loop completed without an exception. -/
def call_on_all_playing_exc (fails : Name → Bool) (method_name : String) :
    List Name → List Call × Bool
  | [] => ([], true)
  | n :: rest =>
    if fails n then ([(n, method_name)], false)
    else
      let r := call_on_all_playing_exc fails method_name rest
      ((n, method_name) :: r.1, r.2)

/-- Embeds `Controller.handle_signal_properties_changed` (lines 76–83).
The Python `props` dict is modelled as an association list;
`"PlaybackStatus" in props` is `lookup` returning `some`. -/
def handle_signal_properties_changed (c : Controller) (interface : String)
    (props : List (String × String)) (sender : Name) : Controller :=
  if interface = MPRIS_INTERFACE then
    match props.lookup "PlaybackStatus" with
    | some status =>
      if status = "Playing" then markas_playing c sender
      else markas_not_playing c sender
    | none => c
  else c

/-- Python errors the embedding distinguishes: `TypeError`, raised by an
invocation whose argument count does not match the callee's signature. -/
inductive PyError where
  | typeError
  deriving DecidableEq, Repr

/-- Python call semantics for a function with exactly one required
positional parameter: an invocation with argument list `args` binds the
parameter when exactly one argument is supplied, and raises `TypeError`
otherwise — before the body runs at all. -/
def callOneParam {α β : Type} (body : α → β) (args : List α) :
    Except PyError β :=
  match args with
  | [a] => Except.ok (body a)
  | _ => Except.error PyError.typeError

/-- Embeds the body of `_call_method` (lines 206–213), a function with one
required positional parameter `method_name`: the D-Bus call is attempted
and `True` returned on success; the `except DBusException` branch returns
`False`. `bus_ok m` models whether the call of method `m` on the daemon
object succeeds. -/
def call_method (bus_ok : String → Bool) (method_name : String) : Bool :=
  bus_ok method_name

/-- Embeds the deferred-invocation callback `_callback` of `entry_point`
(lines 224–226):
`def _callback(count=0): count += 1; return not (_call_method() or count > 5)`.
Line 226 invokes `_call_method` with ZERO arguments although its signature
requires `method_name`, so that invocation raises `TypeError`, and the
`or`, the `count > 5` comparison and the `return` never run. -/
def deferred_callback (bus_ok : String → Bool) (count : Nat) :
    Except PyError Bool := do
  let count := count + 1
  let ok ← callOneParam (call_method bus_ok) []
  return !(ok || decide (count > 5))

/-- Models one firing of the source registered by
`gobject.timeout_add(400, _callback)` (line 228): GLib invokes the Python
callback with no arguments, so `count` is its default `0`; the source
stays scheduled exactly when the invocation returns `True`, and an
invocation that raises has its traceback printed and is treated as having
returned `None`, which removes the source. -/
def timeout_fire_keeps_scheduled (bus_ok : String → Bool) : Bool :=
  match deferred_callback bus_ok 0 with
  | Except.ok b => b
  | Except.error _ => false

/-- The tuple `(0.2, 0.3, 0.4, 0.4, 1.2, 2.3)` of wait intervals iterated
by `entry_point`'s fork path (line 234), as exact rationals in seconds. -/
def backoff_schedule : List ℚ :=
  [2/10, 3/10, 4/10, 4/10, 12/10, 23/10]

/-- Outcome of the client bootstrap-and-call path of `entry_point` after
`_fork_daemon` (lines 232–248): the sleeps performed in order, the process
exit code, and the method calls delivered to the daemon. -/
structure BootstrapOutcome where
  sleeps : List ℚ
  exit_code : Nat
  delivered : List String
  deriving DecidableEq, Repr

/-- Embeds the loop `for wait in (...): sleep(wait); if _daemon_up(): sleep(0.2); break`
loop with its `else: exit(1)` clause (lines 234–243). `up k` is the result
of the `k`-th `_daemon_up()` ownership probe (one probe after each sleep).
Returns the sleeps performed and whether the daemon was observed up. -/
def bootstrap_poll (up : Nat → Bool) : List ℚ → Nat → List ℚ × Bool
  | [], _ => ([], false)
  | w :: rest, k =>
    if up k then ([w, 2/10], true)
    else
      let r := bootstrap_poll up rest (k + 1)
      (w :: r.1, r.2)

/-- Embeds the fork-path tail of `entry_point` (lines 232–251) for a client
that requested method `call`: poll with the backoff schedule; on the
for-loop's `else` branch `exit(1)` runs, so `_call_method(args.call)` on
line 248 is never reached; otherwise the call is delivered once and the
final `exit()` gives code 0. -/
def entry_point_fork (up : Nat → Bool) (call : String) : BootstrapOutcome :=
  let r := bootstrap_poll up backoff_schedule 0
  if r.2 then { sleeps := r.1, exit_code := 0, delivered := [call] }
  else { sleeps := r.1, exit_code := 1, delivered := [] }

/-- One registry mutation, as triggered by the three signal-handling paths
of the daemon (`markas_playing`, `markas_not_playing`, `remove`). -/
inductive RegistryOp where
  | mark_playing (n : Name)
  | mark_not_playing (n : Name)
  | remove_player (n : Name)
  deriving DecidableEq, Repr

def apply_op (c : Controller) : RegistryOp → Controller
  | .mark_playing n => markas_playing c n
  | .mark_not_playing n => markas_not_playing c n
  | .remove_player n => remove c n

/-- Registry state after running a sequence of mutations from the freshly
initialised controller. -/
def run_ops (ops : List RegistryOp) : Controller :=
  ops.foldl apply_op Controller.init

/-- Well-formedness of a registry state: `playing` represents a Python set
(duplicate-free), `not_playing` is duplicate-free (spec invariant I2), and
no identifier sits in both containers (spec invariant I1). -/
def GoodState (c : Controller) : Prop :=
  c.playing.Nodup ∧ c.not_playing.Nodup ∧
    ∀ n, n ∈ c.playing → n ∉ c.not_playing

/-! Helper lemmas shared by the claim theorems. -/

theorem goodState_init : GoodState Controller.init :=
  ⟨List.nodup_nil, List.nodup_nil, fun n h => absurd h (List.not_mem_nil n)⟩

theorem goodState_markas_playing (c : Controller) (name : Name)
    (h : GoodState c) : GoodState (markas_playing c name) := by
  obtain ⟨h1, h2, h3⟩ := h
  refine ⟨?_, h2.erase name, ?_⟩
  · simp only [markas_playing]
    by_cases hm : name ∈ c.playing
    · simpa [hm] using h1
    · simp only [hm, if_false]
      refine List.nodup_append.mpr ⟨h1, List.nodup_singleton name, ?_⟩
      intro a ha hb
      simp only [List.mem_singleton] at hb
      exact hm (hb ▸ ha)
  · intro n hn
    simp only [markas_playing] at hn ⊢
    by_cases hm : name ∈ c.playing
    · rw [if_pos hm] at hn
      exact fun hc => h3 n hn (List.mem_of_mem_erase hc)
    · rw [if_neg hm] at hn
      rcases List.mem_append.mp hn with hn | hn
      · exact fun hc => h3 n hn (List.mem_of_mem_erase hc)
      · have : n = name := by simpa using hn
        subst this
        exact h2.not_mem_erase

theorem goodState_markas_not_playing (c : Controller) (name : Name)
    (h : GoodState c) : GoodState (markas_not_playing c name) := by
  obtain ⟨h1, h2, h3⟩ := h
  refine ⟨h1.erase name, ?_, ?_⟩
  · simp only [markas_not_playing]
    by_cases hm : name ∈ c.not_playing
    · simpa [hm] using h2
    · simp only [hm, if_false]
      refine List.nodup_append.mpr ⟨h2, List.nodup_singleton name, ?_⟩
      intro a ha hb
      simp only [List.mem_singleton] at hb
      exact hm (hb ▸ ha)
  · intro n hn
    simp only [markas_not_playing] at hn ⊢
    have hne : n ≠ name := (h1.mem_erase_iff.mp hn).1
    have hnp : n ∈ c.playing := (h1.mem_erase_iff.mp hn).2
    by_cases hm : name ∈ c.not_playing
    · rw [if_pos hm]
      exact h3 n hnp
    · rw [if_neg hm]
      intro hc
      rcases List.mem_append.mp hc with hc | hc
      · exact h3 n hnp hc
      · exact hne (by simpa using hc)

theorem goodState_remove (c : Controller) (name : Name)
    (h : GoodState c) : GoodState (remove c name) := by
  obtain ⟨h1, h2, h3⟩ := h
  unfold remove
  by_cases hm : name ∈ c.not_playing
  · rw [if_pos hm]
    exact ⟨h1.erase name, h2.erase name, fun n hn hc =>
      h3 n (List.mem_of_mem_erase hn) (List.mem_of_mem_erase hc)⟩
  · rw [if_neg hm]
    exact ⟨h1, h2, h3⟩

theorem goodState_apply_op (c : Controller) (op : RegistryOp)
    (h : GoodState c) : GoodState (apply_op c op) := by
  cases op with
  | mark_playing n => exact goodState_markas_playing c n h
  | mark_not_playing n => exact goodState_markas_not_playing c n h
  | remove_player n => exact goodState_remove c n h

theorem goodState_foldl (ops : List RegistryOp) :
    ∀ c, GoodState c → GoodState (ops.foldl apply_op c) := by
  induction ops with
  | nil => exact fun c h => h
  | cons op rest ih =>
    exact fun c h => ih (apply_op c op) (goodState_apply_op c op h)

theorem bootstrap_poll_never_up (up : Nat → Bool) (h : ∀ j, up j = false) :
    ∀ (ws : List ℚ) (k : Nat), bootstrap_poll up ws k = (ws, false) := by
  intro ws
  induction ws with
  | nil => intro k; rfl
  | cons w rest ih =>
    intro k
    simp [bootstrap_poll, h k, ih (k + 1)]

/-! Claim theorems. -/

/-- C1: when `playing` is non-empty, `PlayPause` issues exactly one "Pause"
call per member of `playing` and nothing else; when `playing` is empty and
`not_playing` is non-empty, it issues a single "Play" call to the last
element of `not_playing` and nothing else. -/
theorem C1_playpause_dispatch (c : Controller) :
    (c.playing ≠ [] →
      ∀ n m, ((n, m) ∈ (PlayPause c).2 ↔ n ∈ c.playing ∧ m = "Pause")) ∧
    (c.playing = [] → ∀ z, c.not_playing.getLast? = some z →
      (PlayPause c).2 = [(z, "Play")]) := by
  constructor
  · intro hne n m
    have hlen : 0 < c.playing.length := List.length_pos.mpr hne
    simp only [PlayPause, if_pos hlen, call_on_all_playing, List.mem_map,
      Prod.mk.injEq]
    constructor
    · rintro ⟨a, ha, rfl, rfl⟩
      exact ⟨ha, rfl⟩
    · rintro ⟨hn, rfl⟩
      exact ⟨n, hn, rfl, rfl⟩
  · intro hpl z hz
    have hne : c.not_playing ≠ [] := by
      intro h
      rw [h] at hz
      exact Option.noConfusion hz
    have hlen : 0 < c.not_playing.length := List.length_pos.mpr hne
    simp [PlayPause, hpl, call_on_head_not_playing, hlen, hz]

/-- Witness for C1 at concrete states: with `playing = [A, B]` the call
list contains `(A, Pause)` and not `(C, Pause)`; with `playing` empty and
`not_playing = [X, Y, Z]` the call list is exactly `[(Z, Play)]`. -/
theorem C1_playpause_dispatch_witness :
    (("A", "Pause") ∈ (PlayPause ⟨["A", "B"], ["C"]⟩).2 ∧
      ¬ (("C", "Pause") ∈ (PlayPause ⟨["A", "B"], ["C"]⟩).2)) ∧
    (PlayPause ⟨[], ["X", "Y", "Z"]⟩).2 = [("Z", "Play")] := by
  refine ⟨⟨?_, ?_⟩, ?_⟩
  · exact ((C1_playpause_dispatch ⟨["A", "B"], ["C"]⟩).1 (by decide)
      "A" "Pause").mpr ⟨by decide, rfl⟩
  · intro h
    have h2 := ((C1_playpause_dispatch ⟨["A", "B"], ["C"]⟩).1 (by decide)
      "C" "Pause").mp h
    exact absurd h2.1 (by decide)
  · exact (C1_playpause_dispatch ⟨[], ["X", "Y", "Z"]⟩).2 rfl "Z" rfl

/-- C2 counterexample: the broadcast loop of `call_on_all_playing` has no
exception handling, so with iteration order `[A, B]` and the call to `A`
raising, `B` never receives its "Pause" call — refuting the claim that the
remaining members still receive their calls. -/
theorem C2_counterexample :
    ¬ (("B", "Pause") ∈
      (call_on_all_playing_exc (fun n => n == "A") "Pause" ["A", "B"]).1) := by
  decide

/-- C2 amended: a raised call aborts the broadcast. Members iterated before
the first failing one receive their calls, the failing member's call is
attempted, the exception propagates (Boolean `false`), and members after
the failing one receive nothing. -/
theorem C2_broadcast_aborts (fails : Name → Bool) (m : String)
    (pre post : List Name) (x : Name)
    (hpre : ∀ n ∈ pre, fails n = false) (hx : fails x = true) :
    call_on_all_playing_exc fails m (pre ++ x :: post) =
      ((pre ++ [x]).map (fun n => (n, m)), false) := by
  induction pre with
  | nil => simp [call_on_all_playing_exc, hx]
  | cons a as ih =>
    have ha : fails a = false := hpre a (List.mem_cons_self a as)
    have hrest : ∀ n ∈ as, fails n = false :=
      fun n hn => hpre n (List.mem_cons_of_mem a hn)
    simp [call_on_all_playing_exc, ha, ih hrest]

/-- Witness for C2's amended statement: iteration order `[A, B, C]` with
the call to `B` failing issues calls to `A` and `B` only and aborts. -/
theorem C2_broadcast_aborts_witness :
    call_on_all_playing_exc (fun n => n == "B") "Pause" ["A", "B", "C"] =
      ([("A", "Pause"), ("B", "Pause")], false) := by
  have h := C2_broadcast_aborts (fun n => n == "B") "Pause" ["A"] ["C"] "B"
    (by decide) (by decide)
  simpa using h

/-- C3 failing input: with `playing = {A}` and `not_playing = []`,
`remove("A")` is a no-op — `"A"` stays in `playing`, because
`not_playing.remove` raises `ValueError` before `playing.discard` runs.
The claim says `Remove` deletes the id from whichever container holds it. -/
theorem C3_remove_skips_playing :
    remove ⟨["A"], []⟩ "A" = ⟨["A"], []⟩ := by
  decide

/-- C5: `Next` and `Previous` issue their call exactly when `playing` has
exactly one member, and issue it to that member; with zero or at least two
members they issue nothing. -/
theorem C5_next_previous (c : Controller) :
    (∀ n, c.playing = [n] →
      Next c = (c, [(n, "Next")]) ∧ Previous c = (c, [(n, "Previous")])) ∧
    (c.playing.length ≠ 1 →
      Next c = (c, []) ∧ Previous c = (c, [])) := by
  constructor
  · intro n h
    constructor <;>
      simp [Next, Previous, call_on_one_playing, call_on_all_playing, h]
  · intro h
    constructor <;> simp [Next, Previous, call_on_one_playing, h]

/-- Witness for C5: `Next` on `playing = [A]` issues `(A, Next)`; `Next`
on `playing = [A, B]` and on `playing = []` issues nothing. -/
theorem C5_next_previous_witness :
    Next ⟨["A"], []⟩ = (⟨["A"], []⟩, [("A", "Next")]) ∧
    Next ⟨["A", "B"], []⟩ = (⟨["A", "B"], []⟩, []) ∧
    Next ⟨[], []⟩ = (⟨[], []⟩, []) :=
  ⟨((C5_next_previous ⟨["A"], []⟩).1 "A" rfl).1,
    ((C5_next_previous ⟨["A", "B"], []⟩).2 (by decide)).1,
    ((C5_next_previous ⟨[], []⟩).2 (by decide)).1⟩

/-- C4 divergence: whatever the daemon would answer, the first 400ms
firing of the deferred-invocation callback raises `TypeError` — line 226
invokes `_call_method()` without its required `method_name` argument — and
the timeout source is removed after that single firing. No delivery
attempt is ever made and nothing is retried, so the claimed schedule of up
to 5 additional 400ms attempts, stopping early on success, never runs. -/
theorem C4_first_firing_raises (bus_ok : String → Bool) :
    deferred_callback bus_ok 0 = Except.error PyError.typeError ∧
    timeout_fire_keeps_scheduled bus_ok = false := by
  constructor <;> rfl

/-- C6: every sequence of `MarkPlaying` / `MarkNotPlaying` / `Remove`
mutations from the initial registry yields a state satisfying invariant I1
(no identifier in both containers) and invariant I2 (`not_playing` is
duplicate-free); since every prefix of a sequence is a sequence, both
invariants hold after every call. -/
theorem C6_invariants (ops : List RegistryOp) :
    (∀ n, n ∈ (run_ops ops).playing → n ∉ (run_ops ops).not_playing) ∧
    (run_ops ops).not_playing.Nodup := by
  have h := goodState_foldl ops Controller.init goodState_init
  exact ⟨h.2.2, h.2.1⟩

/-- C7: re-marking an identifier already in `not_playing` as not playing
leaves the `not_playing` sequence unchanged (the id keeps its position)
and leaves `playing` without the id. `playing` models a Python set, hence
the duplicate-freeness hypothesis. -/
theorem C7_mark_not_playing_stable (c : Controller) (name : Name)
    (hset : c.playing.Nodup) (h : name ∈ c.not_playing) :
    (markas_not_playing c name).not_playing = c.not_playing ∧
    name ∉ (markas_not_playing c name).playing := by
  constructor
  · simp [markas_not_playing, h]
  · simp only [markas_not_playing]
    intro hmem
    exact (hset.mem_erase_iff.mp hmem).1 rfl

/-- Witness for C7: state `playing = {A}`, `not_playing = [B, C]`,
re-marking `B` keeps `not_playing = [B, C]` and leaves `B` out of
`playing`. -/
theorem C7_mark_not_playing_stable_witness :
    (markas_not_playing ⟨["A"], ["B", "C"]⟩ "B").not_playing = ["B", "C"] ∧
    ¬ ("B" ∈ (markas_not_playing ⟨["A"], ["B", "C"]⟩ "B").playing) :=
  C7_mark_not_playing_stable ⟨["A"], ["B", "C"]⟩ "B" (by decide) (by decide)

/-- C8: when no ownership probe ever succeeds, the fork-path client sleeps
exactly the backoff schedule 0.2, 0.3, 0.4, 0.4, 1.2, 2.3 seconds in
order, exits with code 1, and delivers no method call. -/
theorem C8_bootstrap_fatal (up : Nat → Bool) (call : String)
    (h : ∀ k, up k = false) :
    entry_point_fork up call =
      { sleeps := backoff_schedule, exit_code := 1, delivered := [] } := by
  simp [entry_point_fork, bootstrap_poll_never_up up h backoff_schedule 0]

/-- Witness for C8: the concrete always-down probe with a `PlayPause`
request sleeps the whole schedule, exits 1, and delivers nothing. -/
theorem C8_bootstrap_fatal_witness :
    entry_point_fork (fun _ => false) "PlayPause" =
      { sleeps := backoff_schedule, exit_code := 1, delivered := [] } :=
  C8_bootstrap_fatal (fun _ => false) "PlayPause" (fun _ => rfl)

/-- C9: a properties-changed signal whose interface is not the media-player
interface, or whose changed-properties map lacks the `PlaybackStatus` key,
leaves the registry exactly unchanged. -/
theorem C9_signal_noop (c : Controller) (i : String)
    (props : List (String × String)) (s : Name)
    (h : i ≠ MPRIS_INTERFACE ∨ props.lookup "PlaybackStatus" = none) :
    handle_signal_properties_changed c i props s = c := by
  rcases h with h | h
  · simp [handle_signal_properties_changed, h]
  · simp [handle_signal_properties_changed, h]

/-- Witness for C9: a signal on a different interface, and a media-player
signal without `PlaybackStatus`, both leave the state `⟨[A], [B]⟩`
unchanged. -/
theorem C9_signal_noop_witness :
    handle_signal_properties_changed ⟨["A"], ["B"]⟩ "org.other.Interface"
        [("PlaybackStatus", "Playing")] "S" = ⟨["A"], ["B"]⟩ ∧
    handle_signal_properties_changed ⟨["A"], ["B"]⟩ MPRIS_INTERFACE
        [("Volume", "1.0")] "S" = ⟨["A"], ["B"]⟩ :=
  ⟨C9_signal_noop ⟨["A"], ["B"]⟩ "org.other.Interface"
      [("PlaybackStatus", "Playing")] "S" (Or.inl (by decide)),
    C9_signal_noop ⟨["A"], ["B"]⟩ MPRIS_INTERFACE
      [("Volume", "1.0")] "S" (Or.inr (by decide))⟩

/-- C10: with both containers empty, `PlayPause` issues no outbound call
and leaves the registry unchanged. -/
theorem C10_playpause_empty (c : Controller)
    (h1 : c.playing = []) (h2 : c.not_playing = []) :
    PlayPause c = (c, []) := by
  simp [PlayPause, call_on_head_not_playing, h1, h2]

/-- Witness for C10: the freshly initialised controller. -/
theorem C10_playpause_empty_witness :
    PlayPause Controller.init = (Controller.init, []) :=
  C10_playpause_empty Controller.init rfl rfl

end Mpris2Controller
